import Mathlib

/-!
Verification of the Core15 survey-results dashboard pipeline (`app.py`).

The development shallowly embeds the data-normalization and aggregation
pipeline: the answer catalog (`ALLOWED`, `MULTI_SELECT_QS`,
`DEMOGRAPHIC_COLS`), the value normalizer (`bucket_value`), the
multi-select expander (`explode_multiselect`), the frequency aggregator
(`frequency_for_question`), the free-text themer
(`create_themes_for_frustrations`) and the demographic filter engine
(`apply_demographic_filters`).

A raw cell is modelled as `Option String`: `none` is a missing value
(`NaN`), `some s` is the cell text.  A dataframe column is a list of
cells; a dataframe row (for the filter engine) is an association list
from column name to cell text.  Python string primitives used by the
source (`str.strip`, `str.split(",")`, `str.lower`, substring test,
`sorted`) are modelled by executable functions over `List Char` so that
every definition evaluates inside the kernel.  `round(x, 1)` is modelled
on `ℚ` by `round1` via `Rat.floor`.
-/

/-! ## Python string primitives -/

/-- Python `str.strip()`: remove leading and trailing whitespace. -/
def pyStrip (s : String) : String :=
  String.mk (((s.data.dropWhile Char.isWhitespace).reverse.dropWhile Char.isWhitespace).reverse)

/-- Split a character list at every occurrence of a separator character. -/
def splitCharAux (c : Char) : List Char → List (List Char)
  | [] => [[]]
  | x :: xs =>
    match splitCharAux c xs with
    | [] => [[x]]
    | h :: t => if x = c then [] :: h :: t else (x :: h) :: t

/-- Python `s.split(",")`. -/
def pySplitComma (s : String) : List String :=
  (splitCharAux ',' s.data).map String.mk

/-- Python `str.lower()` (ASCII, which covers the catalog keywords). -/
def pyLower (s : String) : String :=
  String.mk (s.data.map Char.toLower)

/-- Python `needle in hay`: contiguous-substring test on character lists. -/
def isSubstr (needle hay : List Char) : Bool :=
  hay.tails.any (fun t => needle.isPrefixOf t)

/-- Code-point comparison of character lists (Python string `<=`). -/
def charsLe : List Char → List Char → Bool
  | [], _ => true
  | _ :: _, [] => false
  | a :: as, b :: bs =>
    if a.toNat < b.toNat then true
    else if b.toNat < a.toNat then false
    else charsLe as bs

/-- Python string `<=` on strings. -/
def strLe (a b : String) : Bool := charsLe a.data b.data

/-- Insert into a `strLe`-sorted list, keeping earlier elements first on ties. -/
def insertLe (x : String) : List String → List String
  | [] => [x]
  | y :: ys => if strLe x y then x :: y :: ys else y :: insertLe x ys

/-- Python `sorted` on strings (stable, code-point order). -/
def pySorted (l : List String) : List String := l.foldr insertLe []

/-- Apostrophe character (several catalog strings contain one). -/
def apoc : Char := Char.ofNat 39

/-- Apostrophe as a one-character string. -/
def apos : String := String.mk [apoc]

/-! ## Answer catalog (`ALLOWED`, `MULTI_SELECT`, demographics) -/

/-- The demographic question columns used as filters. -/
def DEMOGRAPHIC_COLS : List String :=
  [ "How many years of professional experience do you have?",
    "Which best describes your current role?",
    "What is your gender?" ]

/-- The `ALLOWED` registry: each question's permitted answer list. -/
def ALLOWED : List (String × List String) :=
  [ ("In the last 6 months, have you experienced any of the following?",
     [ "Missed a promotion or opportunity",
       "Received critical feedback about leadership or influence",
       "Felt ineffective managing others",
       "Struggled with conflict or alignment",
       "Felt stuck despite strong technical skills",
       "None of the above" ]),
    ("Which of the following do you believe most contributed to these outcomes?",
     [ "Gaps in my leadership or interpersonal skills",
       "Lack of clear feedback or expectations",
       "Organizational politics or bias",
       "Limited opportunity or timing",
       "I" ++ apos ++ "m not sure what the real cause is",
       "Other (open text)" ]),
    ("Which of these best describes your current motivation to improve leadership skills?",
     [ "I am actively trying to improve right now",
       "I know I should improve, but haven" ++ apos ++ "t taken action",
       "It matters, but not urgent",
       "Not a priority for me" ]),
    ("In the last 12 months, how much have you personally spent on professional or leadership development?",
     [ "0",
       "<$100",
       "$100-$500",
       "$500-$1,500",
       "$1,500+" ]),
    ("What best explains the reason for your spending on leadership development over the past 12 months?",
     [ "My employer typically pays for this",
       "I didn" ++ apos ++ "t actively look for solutions",
       "I looked, but didn" ++ apos ++ "t find anything credible",
       "I found options, but they felt too expensive",
       "I don" ++ apos ++ "t usually pay for self-development",
       "Other (open text)" ]),
    ("What have you personally paid for?",
     [ "Online course",
       "Assessment or personality test",
       "Coaching (group or 1:1)",
       "Books or learning subscriptions",
       "Nothing paid personally" ]),
    ("If a leadership assessment + personalized training system clearly improved your effectiveness as a leader, what would feel like a reasonable monthly price?",
     [ "0",
       "$10-$25",
       "$25-$50",
       "$50-$100",
       "$100+" ]),
    ("When it comes to leadership or professional development, I generally expect:",
     [ "My Employer to pay",
       "A mix of employer and personal spending",
       "To pay myself" ]),
    ("Have you ever used a leadership or personality assessment that was NOT required by an employer?",
     [ "Yes",
       "No" ]),
    ("Which sources do you take feedback on your capabilities from seriously?",
     [ "Manager",
       "Peers",
       "Coach or Mentor",
       "Assessment tools",
       "Self-reflection only",
       "I generally distrust feedback" ]),
    ("Seeing my leadership skills benchmarked against others would feel:",
     [ "Motivating",
       "Interesting but neutral",
       "Anxiety-inducing",
       "Not useful",
       "Actively discouraging" ]),
    ("Think about the last self-improvement effort you started on your own. What happened?",
     [ "I stuck with it consistently",
       "I stayed engaged for a while, then dropped off",
       "I barely got started",
       "I avoid self-directed programs" ]),
    ("What most often causes you to stop engaging with self-development tools?",
     [ "Time constraints",
       "Lack of accountability",
       "Content wasn" ++ apos ++ "t relevant",
       "Hard to see progress",
       "Lost motivation",
       "Cost",
       "Other" ]),
    ("What would most increase your likelihood of sticking with a leadership development system?",
     [ "Clear progress tracking",
       "Personalized recommendations",
       "Social comparison or benchmarks",
       "External accountability (coach, group)",
       "Short, lightweight activities" ]),
    ("How many years of professional experience do you have?",
     [ "0-3",
       "4-7",
       "8-15",
       "16+" ]),
    ("Which best describes your current role?",
     [ "Individual Contributor",
       "People Manager",
       "Senior Leader",
       "Founder/Executive" ]),
    ("What is your gender?",
     [ "Male",
       "Female",
       "Prefer not to say" ]) ]

/-- Lookup `ALLOWED.get(col, None)`. -/
def ALLOWED_lookup (col : String) : Option (List String) :=
  (ALLOWED.find? (fun p => p.1 = col)).map Prod.snd

/-- The `MULTI_SELECT` registry: comma-separated multi-select questions. -/
def MULTI_SELECT_QS : List String :=
  [ "In the last 6 months, have you experienced any of the following?",
    "What have you personally paid for?",
    "Which sources do you take feedback on your capabilities from seriously?",
    "What most often causes you to stop engaging with self-development tools?" ]

/-- The sentinel label for unrecognized answers. -/
def OTHER_LABEL : String := "other"

/-! ## Value normalizer and multi-select expander -/

/-- Normalizer `bucket_value(value, allowed)`: `NaN`/`None` or whitespace-only gives
`""` (Absent); a trimmed value in `allowed` is returned verbatim;
anything else becomes `OTHER_LABEL`. -/
def bucket_value (value : Option String) (allowed : List String) : String :=
  match value with
  | none => ""
  | some s =>
    let v := pyStrip s
    if v = "" then "" else if v ∈ allowed then v else OTHER_LABEL

/-- Expander `explode_multiselect(series, allowed)`: drop missing cells, split each
cell on commas, trim fragments, drop empty fragments, bucket the rest,
and finally drop empty buckets. -/
def explode_multiselect (series : List (Option String)) (allowed : List String) : List String :=
  let items := (series.filterMap id).flatMap (fun raw =>
    let parts := ((pySplitComma raw).filter (fun p => pyStrip p ≠ "")).map pyStrip
    parts.map (fun p => bucket_value (some p) allowed))
  items.filter (fun i => i ≠ "")

/-! ## Frequency aggregation (`value_counts` and the table) -/

/-- Distinct values of a list, in first-occurrence order
(the grouping step of `value_counts`). -/
def distincts : List String → List String
  | [] => []
  | x :: xs => x :: (distincts xs).filter (fun y => y ≠ x)

/-- Each distinct value paired with its number of occurrences. -/
def rowCounts (s : List String) : List (String × Nat) :=
  (distincts s).map (fun v => (v, s.count v))

/-- Insert into a count-descending list, keeping earlier rows first on ties. -/
def insertDesc (x : String × Nat) : List (String × Nat) → List (String × Nat)
  | [] => [x]
  | y :: ys => if y.2 ≤ x.2 then x :: y :: ys else y :: insertDesc x ys

/-- Stable sort by count descending (the sort step of `value_counts`). -/
def sortDesc (l : List (String × Nat)) : List (String × Nat) := l.foldr insertDesc []

/-- Pandas `value_counts`: counts of the distinct values, ordered by count
descending, ties in first-occurrence order. -/
def value_counts (s : List String) : List (String × Nat) := sortDesc (rowCounts s)

/-- Python `round(x, 1)` modelled on `ℚ` (round half up at one decimal). -/
def round1 (q : ℚ) : ℚ := ((Rat.floor (q * 10 + 1/2) : ℤ) : ℚ) / 10

/-- One output row of a frequency table. -/
structure FreqRow where
  answer : String
  count : Nat
  percentage : ℚ
deriving DecidableEq

/-- The `total` of the aggregator: `counts.sum()`. -/
def countsSum (s : List String) : Nat := ((value_counts s).map Prod.snd).sum

/-- Build the output frequency table from the counted token list:
`percentage = round(count / total * 100, 1)` when `total > 0`. -/
def mkTable (s : List String) : List FreqRow :=
  (value_counts s).map (fun p =>
    ⟨p.1, p.2, if 0 < countsSum s
      then round1 ((p.2 : ℚ) / (countsSum s : ℚ) * 100) else 0⟩)

/-- The token list counted by `frequency_for_question`, with the answer
catalog and the multi-select registry passed explicitly (the source reads
them as globals): multi-select columns go through `explode_multiselect`
(with `allowed=[]` when the catalog has no entry), known single-select
columns through `bucket_value`, free-text columns through plain trimming;
empty tokens are dropped. -/
def tokensFor_cat (allowedMap : String → Option (List String)) (multi : List String)
    (df_col : List (Option String)) (col : String) : List String :=
  if col ∈ multi then
    match allowedMap col with
    | none => explode_multiselect df_col []
    | some a => explode_multiselect df_col a
  else
    match allowedMap col with
    | some a =>
        (df_col.map (fun v => match v with
          | none => ""
          | some x => bucket_value (some x) a)).filter (fun x => x ≠ "")
    | none =>
        (df_col.map (fun v => match v with
          | none => ""
          | some x => pyStrip x)).filter (fun x => x ≠ "")

/-- Tokens `tokensFor` with the program's actual catalogs. -/
def tokensFor (df_col : List (Option String)) (col : String) : List String :=
  tokensFor_cat ALLOWED_lookup MULTI_SELECT_QS df_col col

/-- Aggregator `frequency_for_question(df, col)` applied to the column `df[col]`. -/
def frequency_for_question (df_col : List (Option String)) (col : String) : List FreqRow :=
  mkTable (tokensFor df_col col)

/-- Sum of the `count` column of a frequency table (the `total`). -/
def totalCount (t : List FreqRow) : Nat := (t.map FreqRow.count).sum

/-- Sum of the `percentage` column of a frequency table. -/
def pctSum (t : List FreqRow) : ℚ := (t.map FreqRow.percentage).sum

/-! ## Free-text themer -/

/-- The fixed theme catalog of `create_themes_for_frustrations`,
in declared (priority) order. -/
def THEMES : List (String × List String) :=
  [ ("Time constraints",
     [ "time", "busy", "schedule", "hours", "workload", "overwhelmed",
       "no time", "don" ++ apos ++ "t have time", "lack of time" ]),
    ("Lack of feedback/guidance",
     [ "feedback", "guidance", "mentor", "coach", "direction", "advice",
       "support", "help", "don" ++ apos ++ "t know how", "unsure how" ]),
    ("Cost/money",
     [ "cost", "expensive", "money", "price", "afford", "budget",
       "financial", "pay", "paid" ]),
    ("Not seeing progress/results",
     [ "progress", "results", "improvement", "change", "see results",
       "measurable", "outcomes", "impact" ]),
    ("Lack of accountability/motivation",
     [ "accountability", "motivation", "discipline", "consistency",
       "stick with", "follow through", "commitment" ]),
    ("Content not relevant/applicable",
     [ "relevant", "applicable", "practical", "real-world", "useful",
       "actionable", "relatable" ]),
    ("Information overload/too much",
     [ "overwhelming", "too much", "information overload", "complex",
       "complicated", "confusing" ]),
    ("Lack of resources/tools",
     [ "resources", "tools", "access", "available", "options",
       "programs", "platforms" ]),
    ("Organizational/systemic barriers",
     [ "company", "organization", "employer", "system", "culture",
       "politics", "structure", "management" ]),
    ("Self-doubt/confidence",
     [ "confidence", "self-doubt", "imposter", "worthy", "capable",
       "qualified", "deserve" ]) ]

/-- Name of the overflow theme for unmatched responses. -/
def OVERFLOW_THEME : String := "Other/Uncategorized"

/-- Python `any(keyword in response_lower for keyword in keywords)`. -/
def matchesTheme (resp : String) (kws : List String) : Bool :=
  kws.any (fun kw => isSubstr kw.data (pyLower resp).data)

/-- The theme a response is assigned to: the first theme in catalog order
with a keyword match, else the overflow theme (the source's
first-match-wins loop with `break`). -/
def assignedTheme (resp : String) : String :=
  match THEMES.find? (fun t => matchesTheme resp t.2) with
  | some t => t.1
  | none => OVERFLOW_THEME

/-- Themer `create_themes_for_frustrations(responses)`: empty input gives the
empty mapping; otherwise each theme (in catalog order) holds the
responses assigned to it, empty themes are dropped, and unmatched
responses form the overflow theme at the end. -/
def create_themes_for_frustrations (responses : List String) : List (String × List String) :=
  if responses.isEmpty then []
  else
    let categorized := THEMES.map (fun t =>
      (t.1, responses.filter (fun r => assignedTheme r = t.1)))
    let uncategorized := responses.filter (fun r => assignedTheme r = OVERFLOW_THEME)
    categorized.filter (fun p => ¬ p.2.isEmpty) ++
      (if uncategorized.isEmpty then [] else [(OVERFLOW_THEME, uncategorized)])

/-! ## Demographic filter engine -/

/-- A dataframe row for the filter engine: column name to cell text,
the cell already coerced to string as `astype(str)` does. -/
abbrev Row := List (String × String)

/-- The (string-coerced) value of a row at a column. -/
def getCell (r : Row) (col : String) : String :=
  ((r.find? (fun p => p.1 = col)).map Prod.snd).getD ""

/-- The multiselect constraint chosen for a column (`[]` when none). -/
def selOf (sel : List (String × List String)) (col : String) : List String :=
  ((sel.find? (fun p => p.1 = col)).map Prod.snd).getD []

/-- One pass of the filter loop body for a single demographic column:
skip missing columns, skip empty selections, else keep the rows whose
value is in the selection. -/
def stepFilter (columns : List String) (sel : List (String × List String))
    (col : String) (rows : List Row) : List Row :=
  if col ∈ columns then
    if selOf sel col ≠ [] then
      rows.filter (fun r => getCell r col ∈ selOf sel col)
    else rows
  else rows

/-- The filter loop over a list of demographic columns. -/
def filterCols (columns : List String) (sel : List (String × List String)) :
    List String → List Row → List Row
  | [], rows => rows
  | col :: cols, rows => filterCols columns sel cols (stepFilter columns sel col rows)

/-- Engine `apply_demographic_filters(df)` with the user's sidebar selections
passed explicitly. -/
def apply_demographic_filters (columns : List String) (rows : List Row)
    (sel : List (String × List String)) : List Row :=
  filterCols columns sel DEMOGRAPHIC_COLS rows

/-- The option list offered for one demographic column: the sorted
distinct observed values; when the catalog has a non-empty permitted
list, that list first and the sorted unrecognized values appended. -/
def filterOptions (colValues : List (Option String)) (col : String) : List String :=
  match ALLOWED_lookup col with
  | some allowed =>
      if allowed ≠ [] then
        allowed ++ pySorted ((pySorted (distincts (colValues.filterMap id))).filter
          (fun o => o ∉ allowed))
      else pySorted (distincts (colValues.filterMap id))
  | none => pySorted (distincts (colValues.filterMap id))

/-! ## Helper lemmas -/

lemma round1_eq_floor (q : ℚ) : round1 q = ((⌊q * 10 + 1/2⌋ : ℤ) : ℚ) / 10 := by
  rw [round1, Rat.floor_def', Rat.floor_def]

/-! ## C1: the value normalizer -/

/-- C1: for every raw value and permitted set, `bucket_value` returns the
empty token for a missing or whitespace-only input, the permitted entry
itself when the trimmed value matches one case-sensitively, and the
sentinel `OTHER_LABEL` otherwise; hence its output is always Absent, a
permitted label, or the sentinel — never an unrecognized raw string. -/
theorem bucket_value_normalizer_contract (v : Option String) (allowed : List String) :
    (bucket_value none allowed = "") ∧
    (∀ s, pyStrip s = "" → bucket_value (some s) allowed = "") ∧
    (∀ s, pyStrip s ≠ "" → pyStrip s ∈ allowed → bucket_value (some s) allowed = pyStrip s) ∧
    (∀ s, pyStrip s ≠ "" → pyStrip s ∉ allowed → bucket_value (some s) allowed = OTHER_LABEL) ∧
    (bucket_value v allowed = "" ∨ bucket_value v allowed ∈ allowed ∨
      bucket_value v allowed = OTHER_LABEL) := by
  refine ⟨rfl, ?_, ?_, ?_, ?_⟩
  · intro s hs
    simp [bucket_value, hs]
  · intro s hs hmem
    simp [bucket_value, hs, hmem]
  · intro s hs hmem
    simp [bucket_value, hs, hmem]
  · match v with
    | none => exact Or.inl rfl
    | some s =>
      by_cases hs : pyStrip s = ""
      · exact Or.inl (by simp [bucket_value, hs])
      · by_cases hmem : pyStrip s ∈ allowed
        · exact Or.inr (Or.inl (by simp [bucket_value, hs, hmem]))
        · exact Or.inr (Or.inr (by simp [bucket_value, hs, hmem]))

/-- Witness for C1 at a concrete unrecognized input. -/
theorem bucket_value_normalizer_contract_witness :
    pyStrip "  Bogus " ≠ "" ∧ pyStrip "  Bogus " ∉ ["Yes", "No"] ∧
    bucket_value (some "  Bogus ") ["Yes", "No"] = OTHER_LABEL :=
  ⟨by decide, by decide,
    (bucket_value_normalizer_contract (some "  Bogus ") ["Yes", "No"]).2.2.2.1
      "  Bogus " (by decide) (by decide)⟩

/-! ## C3: the multi-select expander -/

/-- C3: multi-select expansion contributes nothing for a missing cell,
and for a present cell splits on commas, trims each fragment, drops
fragments empty after trimming and normalizes the survivors; on the cell
`"Manager, Peers, Bogus"` against the feedback-sources permitted set it
yields `["Manager", "Peers", "other"]`. -/
theorem explode_multiselect_expansion_contract (cell : String) (rest : List (Option String))
    (allowed : List String) :
    (explode_multiselect [(none : Option String)] allowed = []) ∧
    (explode_multiselect (none :: rest) allowed = explode_multiselect rest allowed) ∧
    (explode_multiselect (some cell :: rest) allowed =
      ((((pySplitComma cell).filter (fun p => pyStrip p ≠ "")).map pyStrip).map
          (fun p => bucket_value (some p) allowed)).filter (fun i => i ≠ "") ++
        explode_multiselect rest allowed) ∧
    (explode_multiselect [some "Manager, Peers, Bogus"]
        ["Manager", "Peers", "Coach or Mentor", "Assessment tools",
         "Self-reflection only", "I generally distrust feedback"]
      = ["Manager", "Peers", "other"]) := by
  refine ⟨rfl, ?_, ?_, by decide⟩
  · simp [explode_multiselect]
  · simp [explode_multiselect, List.filter_append]

/-! ## C4: the single-select scenario -/

/-- C4: the 5-row collection `["Yes","Yes","No","","Maybe"]` for the
assessment question aggregates to Yes=2 (50.0%), No=1 (25.0%),
other=1 (25.0%), with the blank row excluded so the denominator is 4. -/
theorem frequency_scenario_assessment_question :
    frequency_for_question [some "Yes", some "Yes", some "No", some "", some "Maybe"]
        "Have you ever used a leadership or personality assessment that was NOT required by an employer?"
      = [⟨"Yes", 2, 50⟩, ⟨"No", 1, 25⟩, ⟨"other", 1, 25⟩] ∧
    totalCount (frequency_for_question [some "Yes", some "Yes", some "No", some "", some "Maybe"]
        "Have you ever used a leadership or personality assessment that was NOT required by an employer?")
      = 4 := by
  have htok : tokensFor [some "Yes", some "Yes", some "No", some "", some "Maybe"]
      "Have you ever used a leadership or personality assessment that was NOT required by an employer?"
      = ["Yes", "Yes", "No", "other"] := by decide
  have hvc : value_counts ["Yes", "Yes", "No", "other"]
      = [("Yes", 2), ("No", 1), ("other", 1)] := by decide
  have hcs : countsSum ["Yes", "Yes", "No", "other"] = 4 := by decide
  have htab : frequency_for_question [some "Yes", some "Yes", some "No", some "", some "Maybe"]
      "Have you ever used a leadership or personality assessment that was NOT required by an employer?"
      = [⟨"Yes", 2, 50⟩, ⟨"No", 1, 25⟩, ⟨"other", 1, 25⟩] := by
    rw [frequency_for_question, htok, mkTable, hvc, hcs]
    norm_num [round1_eq_floor]
  exact ⟨htab, by rw [htab]; rfl⟩

/-! ## C9: multi-select question without a permitted set -/

/-- C9: when a multi-select question has no entry in the answer catalog,
the code passes the empty permitted list to the expander, so every
trimmed non-empty fragment is bucketed to the sentinel instead of being
counted verbatim: the cell `"Apple, Banana"` yields two `"other"` tokens
and the table `other=2 (100.0%)`, not `Apple=1, Banana=1`. -/
theorem multiselect_without_catalog_buckets_to_other :
    tokensFor_cat (fun _ => none) ["Q"] [some "Apple, Banana"] "Q" = ["other", "other"] ∧
    mkTable (tokensFor_cat (fun _ => none) ["Q"] [some "Apple, Banana"] "Q")
      = [⟨"other", 2, 100⟩] ∧
    mkTable (tokensFor_cat (fun _ => none) ["Q"] [some "Apple, Banana"] "Q")
      ≠ [⟨"Apple", 1, 50⟩, ⟨"Banana", 1, 50⟩] := by
  have htok : tokensFor_cat (fun _ => none) ["Q"] [some "Apple, Banana"] "Q"
      = ["other", "other"] := by decide
  have hvc : value_counts ["other", "other"] = [("other", 2)] := by decide
  have hcs : countsSum ["other", "other"] = 2 := by decide
  have htab : mkTable (tokensFor_cat (fun _ => none) ["Q"] [some "Apple, Banana"] "Q")
      = [⟨"other", 2, 100⟩] := by
    rw [htok, mkTable, hvc, hcs]
    norm_num [round1_eq_floor]
  refine ⟨htok, htab, ?_⟩
  rw [htab]
  intro h
  have := List.head_eq_of_cons_eq h
  simp [FreqRow.mk.injEq] at this

/-- A list containing an element is not `isEmpty`. -/
lemma isEmpty_false_of_mem {α : Type} {a : α} {l : List α} (h : a ∈ l) :
    l.isEmpty = false := by
  cases l with
  | nil => cases h
  | cons x xs => rfl

/-- The theme names of the themer output are pairwise distinct. -/
lemma create_themes_names_nodup (responses : List String) :
    ((create_themes_for_frustrations responses).map Prod.fst).Nodup := by
  by_cases hne : responses.isEmpty = true
  · simp [create_themes_for_frustrations, hne]
  · rw [create_themes_for_frustrations, if_neg hne, List.map_append]
    have hsub : List.Sublist (((THEMES.map (fun t =>
        (t.1, responses.filter (fun r => assignedTheme r = t.1)))).filter
          (fun p => ¬ p.2.isEmpty)).map Prod.fst) (THEMES.map Prod.fst) := by
      have h2 := (List.filter_sublist (l := THEMES.map (fun t =>
        (t.1, responses.filter (fun r => assignedTheme r = t.1))))
        (p := fun p => ¬ p.2.isEmpty)).map Prod.fst
      simpa [List.map_map] using h2
    refine List.Nodup.append ((by decide : (THEMES.map Prod.fst).Nodup).sublist hsub) ?_ ?_
    · split
      · simp
      · simp
    · intro a ha hb
      have haT : a ∈ THEMES.map Prod.fst := hsub.subset ha
      have hovf : a = OVERFLOW_THEME := by
        revert hb
        split
        · intro hb; cases hb
        · intro hb
          simpa using hb
      rw [hovf] at haT
      exact absurd haT (by decide)

/-- Membership characterization of the themer output. -/
lemma mem_create_themes (responses : List String) (name : String) (l : List String) :
    (name, l) ∈ create_themes_for_frustrations responses ↔
      responses.isEmpty = false ∧
      ((∃ t ∈ THEMES, name = t.1 ∧
          l = responses.filter (fun x => assignedTheme x = t.1) ∧ l.isEmpty = false) ∨
        (name = OVERFLOW_THEME ∧
          l = responses.filter (fun x => assignedTheme x = OVERFLOW_THEME) ∧
          l.isEmpty = false)) := by
  by_cases hne : responses.isEmpty = true
  · simp [create_themes_for_frustrations, hne]
  · have hne' : responses.isEmpty = false := by simpa using hne
    have hunfold : create_themes_for_frustrations responses =
        (THEMES.map (fun t =>
            (t.1, responses.filter (fun r => assignedTheme r = t.1)))).filter
            (fun p => ¬ p.2.isEmpty) ++
          (if (responses.filter (fun r => assignedTheme r = OVERFLOW_THEME)).isEmpty
            then []
            else [(OVERFLOW_THEME,
              responses.filter (fun r => assignedTheme r = OVERFLOW_THEME))]) := by
      rw [create_themes_for_frustrations, if_neg (by simp [hne'])]
    rw [hunfold, List.mem_append, List.mem_filter, List.mem_map]
    constructor
    · rintro (⟨⟨t, ht, hft⟩, hpe⟩ | hovf)
      · injection hft with h1 h2
        refine ⟨hne', Or.inl ⟨t, ht, h1.symm, h2.symm, ?_⟩⟩
        simpa using hpe
      · by_cases hu : (responses.filter
            (fun r => assignedTheme r = OVERFLOW_THEME)).isEmpty = true
        · rw [if_pos hu] at hovf
          cases hovf
        · rw [if_neg hu] at hovf
          simp only [Bool.not_eq_true] at hu
          have h := List.mem_singleton.mp hovf
          injection h with h1 h2
          refine ⟨hne', Or.inr ⟨h1, h2, ?_⟩⟩
          rw [h2]
          exact hu
    · rintro ⟨-, (⟨t, ht, rfl, rfl, hl⟩ | ⟨rfl, rfl, hl⟩)⟩
      · exact Or.inl ⟨⟨t, ht, rfl⟩, by simpa using hl⟩
      · rw [if_neg (by simp [hl])]
        exact Or.inr (List.mem_singleton.mpr rfl)

/-- C5: every input response lands in exactly one output theme — the one
named by `assignedTheme`, i.e. the first catalog theme with a
case-insensitive keyword substring match, or the overflow theme — and
theming the same input again yields the identical grouping. -/
theorem theming_first_match_partition (responses : List String) (r : String)
    (hr : r ∈ responses) :
    (∃ l, (assignedTheme r, l) ∈ create_themes_for_frustrations responses ∧ r ∈ l) ∧
    (∀ name l, (name, l) ∈ create_themes_for_frustrations responses → r ∈ l →
      name = assignedTheme r) ∧
    ((create_themes_for_frustrations responses).map Prod.fst).Nodup ∧
    create_themes_for_frustrations responses = create_themes_for_frustrations responses := by
  have hne' : responses.isEmpty = false := isEmpty_false_of_mem hr
  refine ⟨?_, ?_, create_themes_names_nodup responses, rfl⟩
  · -- existence of the assigned bucket
    rcases hth : THEMES.find? (fun t => matchesTheme r t.2) with _ | t₀
    · have hA : assignedTheme r = OVERFLOW_THEME := by rw [assignedTheme, hth]
      refine ⟨responses.filter (fun x => assignedTheme x = OVERFLOW_THEME), ?_, ?_⟩
      · rw [hA, mem_create_themes]
        have hrl : r ∈ responses.filter (fun x => assignedTheme x = OVERFLOW_THEME) :=
          List.mem_filter.mpr ⟨hr, by simp [hA]⟩
        exact ⟨hne', Or.inr ⟨rfl, rfl, isEmpty_false_of_mem hrl⟩⟩
      · exact List.mem_filter.mpr ⟨hr, by simp [hA]⟩
    · have hA : assignedTheme r = t₀.1 := by rw [assignedTheme, hth]
      refine ⟨responses.filter (fun x => assignedTheme x = t₀.1), ?_, ?_⟩
      · rw [mem_create_themes]
        have hrl : r ∈ responses.filter (fun x => assignedTheme x = t₀.1) :=
          List.mem_filter.mpr ⟨hr, by simp [hA]⟩
        exact ⟨hne', Or.inl ⟨t₀, List.mem_of_find?_eq_some hth, hA, rfl,
          isEmpty_false_of_mem hrl⟩⟩
      · exact List.mem_filter.mpr ⟨hr, by simp [hA]⟩
  · -- uniqueness of the bucket containing r
    intro name l hml hrl
    rw [mem_create_themes] at hml
    rcases hml with ⟨-, ⟨t, ht, hname, hl, -⟩ | ⟨hname, hl, -⟩⟩
    · rw [hl] at hrl
      have := (List.mem_filter.mp hrl).2
      simp only [decide_eq_true_eq] at this
      rw [hname, ← this]
    · rw [hl] at hrl
      have := (List.mem_filter.mp hrl).2
      simp only [decide_eq_true_eq] at this
      rw [hname, ← this]

/-- Witness for C5 at a concrete matched and unmatched response. -/
theorem theming_first_match_partition_witness :
    ("no time to do anything" : String) ∈ ["no time to do anything", "great program"] ∧
    (∃ l, (assignedTheme "no time to do anything", l) ∈
        create_themes_for_frustrations ["no time to do anything", "great program"] ∧
      "no time to do anything" ∈ l) ∧
    assignedTheme "no time to do anything" = "Time constraints" :=
  ⟨by decide,
    (theming_first_match_partition ["no time to do anything", "great program"]
      "no time to do anything" (by decide)).1,
    by decide⟩

/-- The per-column pass predicate of the filter engine. -/
def passes (columns : List String) (sel : List (String × List String))
    (col : String) (r : Row) : Prop :=
  col ∈ columns → selOf sel col ≠ [] → getCell r col ∈ selOf sel col

/-- One filter step keeps exactly the rows passing that column. -/
lemma mem_stepFilter (columns : List String) (sel : List (String × List String))
    (col : String) (rows : List Row) (r : Row) :
    r ∈ stepFilter columns sel col rows ↔ r ∈ rows ∧ passes columns sel col r := by
  rw [stepFilter, passes]
  by_cases hc : col ∈ columns
  · rw [if_pos hc]
    by_cases hs : selOf sel col ≠ []
    · rw [if_pos hs, List.mem_filter]
      simp [hc, hs]
    · rw [if_neg hs]
      simp only [not_not] at hs
      simp [hs]
  · rw [if_neg hc]
    simp [hc]

/-- Membership in the filter loop over any column list. -/
lemma mem_filterCols (columns : List String) (sel : List (String × List String))
    (cols : List String) (rows : List Row) (r : Row) :
    r ∈ filterCols columns sel cols rows ↔
      r ∈ rows ∧ ∀ col ∈ cols, passes columns sel col r := by
  induction cols generalizing rows with
  | nil => simp [filterCols]
  | cons c cs ih =>
    rw [filterCols, ih, mem_stepFilter]
    constructor
    · rintro ⟨⟨hr, hc⟩, hcs⟩
      refine ⟨hr, ?_⟩
      intro col hcol
      rcases hcol with _ | hcol
      · exact hc
      · exact hcs col (by assumption)
    · rintro ⟨hr, hall⟩
      exact ⟨⟨hr, hall c (List.mem_cons_self c cs)⟩,
        fun col hcol => hall col (List.mem_cons_of_mem c hcol)⟩

/-- With no selections the filter loop is the identity. -/
lemma filterCols_no_sel (columns : List String) (cols : List String) (rows : List Row) :
    filterCols columns [] cols rows = rows := by
  induction cols with
  | nil => rfl
  | cons c cs ih =>
    rw [filterCols, stepFilter]
    have hsel : selOf [] c = [] := rfl
    rw [hsel]
    simp only [ne_eq, not_true_eq_false, if_false]
    split
    · exact ih
    · exact ih

/-- C6: a row survives `apply_demographic_filters` iff, for every
demographic column present in the dataframe with a non-empty selection,
its (string-coerced) value is a member of that selection — constraints
compose conjunctively, an absent or empty selection imposes no
restriction, and with no selections at all the output is the input
collection unchanged. -/
theorem filter_engine_membership (columns : List String) (rows : List Row)
    (sel : List (String × List String)) :
    (∀ r, r ∈ apply_demographic_filters columns rows sel ↔
      r ∈ rows ∧ ∀ col ∈ DEMOGRAPHIC_COLS,
        col ∈ columns → selOf sel col ≠ [] → getCell r col ∈ selOf sel col) ∧
    apply_demographic_filters columns rows [] = rows := by
  constructor
  · intro r
    rw [apply_demographic_filters, mem_filterCols]
    rfl
  · rw [apply_demographic_filters, filterCols_no_sel]

/-- Witness for C6 at a concrete one-row collection. -/
theorem filter_engine_membership_witness :
    apply_demographic_filters ["What is your gender?"]
      [[("What is your gender?", "Male")]] [] = [[("What is your gender?", "Male")]] :=
  (filter_engine_membership ["What is your gender?"]
    [[("What is your gender?", "Male")]] []).2

/-- One filter step is monotone in the row list (w.r.t. sublists). -/
lemma stepFilter_sublist (columns : List String) (sel : List (String × List String))
    (col : String) {r₁ r₂ : List Row} (h : List.Sublist r₂ r₁) :
    List.Sublist (stepFilter columns sel col r₂) (stepFilter columns sel col r₁) := by
  rw [stepFilter, stepFilter]
  by_cases hc : col ∈ columns
  · rw [if_pos hc, if_pos hc]
    by_cases hs : selOf sel col ≠ []
    · rw [if_pos hs, if_pos hs]
      exact h.filter _
    · rw [if_neg hs, if_neg hs]
      exact h
  · rw [if_neg hc, if_neg hc]
    exact h

/-- A strictly stronger selection at one column filters to a sublist. -/
lemma stepFilter_stronger (columns : List String)
    (sel₁ sel₂ : List (String × List String)) (col : String) (rows : List Row)
    (h : selOf sel₁ col = [] ∨
      (selOf sel₂ col ≠ [] ∧ ∀ x ∈ selOf sel₂ col, x ∈ selOf sel₁ col)) :
    List.Sublist (stepFilter columns sel₂ col rows) (stepFilter columns sel₁ col rows) := by
  rw [stepFilter, stepFilter]
  by_cases hc : col ∈ columns
  · rw [if_pos hc, if_pos hc]
    by_cases hs₁ : selOf sel₁ col = []
    · rw [if_neg (show ¬ selOf sel₁ col ≠ [] by simp [hs₁])]
      by_cases hs₂ : selOf sel₂ col ≠ []
      · rw [if_pos hs₂]
        exact List.filter_sublist rows
      · rw [if_neg hs₂]
    · rcases h with h | ⟨hs₂, hsub⟩
      · exact absurd h hs₁
      · rw [if_pos hs₂, if_pos (show selOf sel₁ col ≠ [] from hs₁)]
        refine List.monotone_filter_right rows ?_
        intro r hr
        simp only [decide_eq_true_eq] at hr ⊢
        exact hsub _ hr
  · rw [if_neg hc, if_neg hc]

/-- The filter loop is monotone in the row list. -/
lemma filterCols_sublist_mono (columns : List String)
    (sel : List (String × List String)) (cols : List String) {r₁ r₂ : List Row}
    (h : List.Sublist r₂ r₁) :
    List.Sublist (filterCols columns sel cols r₂) (filterCols columns sel cols r₁) := by
  induction cols generalizing r₁ r₂ with
  | nil => exact h
  | cons c cs ih => exact ih (stepFilter_sublist columns sel c h)

/-- Strengthening every column's selection filters to a sublist. -/
lemma filterCols_stronger (columns : List String)
    (sel₁ sel₂ : List (String × List String)) (cols : List String) (rows : List Row)
    (h : ∀ col ∈ cols, selOf sel₁ col = [] ∨
      (selOf sel₂ col ≠ [] ∧ ∀ x ∈ selOf sel₂ col, x ∈ selOf sel₁ col)) :
    List.Sublist (filterCols columns sel₂ cols rows) (filterCols columns sel₁ cols rows) := by
  induction cols generalizing rows with
  | nil => exact List.Sublist.refl rows
  | cons c cs ih =>
    rw [filterCols, filterCols]
    refine List.Sublist.trans
      (filterCols_sublist_mono columns sel₂ cs
        (stepFilter_stronger columns sel₁ sel₂ c rows (h c (List.mem_cons_self c cs))))
      (ih (stepFilter columns sel₁ c rows)
        (fun col hcol => h col (List.mem_cons_of_mem c hcol)))

/-- C7: filtering is monotonic — strengthening the demographic
constraints (adding a constraint where there was none, or narrowing an
existing accepted set) never increases the filtered row count. -/
theorem filter_engine_monotone (columns : List String) (rows : List Row)
    (sel₁ sel₂ : List (String × List String))
    (h : ∀ col ∈ DEMOGRAPHIC_COLS, selOf sel₁ col = [] ∨
      (selOf sel₂ col ≠ [] ∧ ∀ x ∈ selOf sel₂ col, x ∈ selOf sel₁ col)) :
    (apply_demographic_filters columns rows sel₂).length ≤
      (apply_demographic_filters columns rows sel₁).length :=
  (filterCols_stronger columns sel₁ sel₂ DEMOGRAPHIC_COLS rows h).length_le

/-- Witness for C7: adding a gender constraint to an unconstrained
two-row collection. -/
theorem filter_engine_monotone_witness :
    (apply_demographic_filters ["What is your gender?"]
      [[("What is your gender?", "Male")], [("What is your gender?", "Female")]]
      [("What is your gender?", ["Male"])]).length ≤
    (apply_demographic_filters ["What is your gender?"]
      [[("What is your gender?", "Male")], [("What is your gender?", "Female")]]
      []).length :=
  filter_engine_monotone ["What is your gender?"]
    [[("What is your gender?", "Male")], [("What is your gender?", "Female")]]
    [] [("What is your gender?", ["Male"])] (by decide)

/-- Comparison `charsLe` is total. -/
lemma charsLe_total (a : List Char) : ∀ b, charsLe a b = true ∨ charsLe b a = true := by
  induction a with
  | nil => intro b; exact Or.inl rfl
  | cons x xs ih =>
    intro b
    cases b with
    | nil => exact Or.inr rfl
    | cons y ys =>
      rw [charsLe, charsLe]
      rcases Nat.lt_trichotomy x.toNat y.toNat with hlt | heq | hgt
      · rw [if_pos hlt]
        exact Or.inl rfl
      · rw [if_neg (by omega), if_neg (by omega), if_neg (by omega), if_neg (by omega)]
        exact ih ys
      · rw [if_neg (by omega), if_pos hgt]
        exact Or.inr (by rw [if_pos hgt])

/-- Comparison `strLe` is total. -/
lemma strLe_total (a b : String) : strLe a b = true ∨ strLe b a = true :=
  charsLe_total a.data b.data

/-- Membership in an insertion. -/
lemma mem_insertLe (x a : String) (l : List String) :
    a ∈ insertLe x l ↔ a = x ∨ a ∈ l := by
  induction l with
  | nil => simp [insertLe]
  | cons y ys ih =>
    rw [insertLe]
    split
    · simp [List.mem_cons]
    · simp only [List.mem_cons, ih]
      tauto

/-- Membership is preserved by `pySorted`. -/
lemma mem_pySorted (a : String) (l : List String) : a ∈ pySorted l ↔ a ∈ l := by
  induction l with
  | nil => simp [pySorted]
  | cons y ys ih =>
    rw [pySorted, List.foldr_cons]
    rw [show List.foldr insertLe [] ys = pySorted ys from rfl] at *
    rw [mem_insertLe, ih, List.mem_cons]

/-- The head of an insertion is the inserted element or the old head. -/
lemma head?_insertLe (x : String) (l : List String) :
    (insertLe x l).head? = some x ∨ (insertLe x l).head? = l.head? := by
  cases l with
  | nil => exact Or.inl rfl
  | cons y ys =>
    rw [insertLe]
    split
    · exact Or.inl rfl
    · exact Or.inr rfl

/-- Insertion preserves sortedness. -/
lemma chain'_insertLe (x : String) (l : List String)
    (h : List.Chain' (fun a b => strLe a b = true) l) :
    List.Chain' (fun a b => strLe a b = true) (insertLe x l) := by
  induction l with
  | nil => simp [insertLe]
  | cons y ys ih =>
    rw [insertLe]
    split
    · exact h.cons (by assumption)
    · rename_i hxy
      have hys := h.tail
      rw [List.chain'_cons']
      refine ⟨?_, ih hys⟩
      intro z hz
      rcases head?_insertLe x ys with he | he
      · rw [he] at hz
        injection hz with hz
        rcases strLe_total x y with ht | ht
        · exact absurd ht hxy
        · rw [← hz]
          exact ht
      · rw [he] at hz
        exact (List.chain'_cons'.mp h).1 z hz

/-- Sorting `pySorted` output is sorted. -/
lemma chain'_pySorted (l : List String) :
    List.Chain' (fun a b => strLe a b = true) (pySorted l) := by
  induction l with
  | nil => simp [pySorted]
  | cons y ys ih => exact chain'_insertLe y (pySorted ys) ih

/-- Membership in the first-occurrence distinct list. -/
lemma mem_distincts (v : String) (l : List String) : v ∈ distincts l ↔ v ∈ l := by
  induction l with
  | nil => simp [distincts]
  | cons x xs ih =>
    rw [distincts]
    simp only [List.mem_cons, List.mem_filter, ih, decide_eq_true_eq]
    by_cases hv : v = x
    · simp [hv]
    · simp [hv]

/-- Counterexample to C8 as stated: for the gender question over a
collection whose only observed value is `"Male"`, the exposed option list
contains `"Female"`, which is not an observed distinct value — the
interface exposes the full permitted list, not exactly the observed
set. -/
theorem filter_options_counterexample :
    "Female" ∈ filterOptions [some "Male"] "What is your gender?" ∧
    "Female" ∉ distincts (([some "Male"] : List (Option String)).filterMap id) := by
  decide

/-- C8 (amended): for a demographic question with a non-empty permitted
list, the exposed options are the permitted list in catalog order
followed by the unrecognized observed values in sorted order; every
observed value is exposed, but permitted values appear even when
unobserved. -/
theorem filter_options_amended (colValues : List (Option String)) (col : String)
    (allowed : List String) (h₁ : ALLOWED_lookup col = some allowed)
    (h₂ : allowed ≠ []) :
    ∃ w, filterOptions colValues col = allowed ++ w ∧
      List.Chain' (fun a b => strLe a b = true) w ∧
      (∀ x ∈ w, x ∉ allowed ∧ x ∈ colValues.filterMap id) ∧
      (∀ v ∈ colValues.filterMap id, v ∈ filterOptions colValues col) := by
  have hunfold : filterOptions colValues col =
      allowed ++ pySorted ((pySorted (distincts (colValues.filterMap id))).filter
        (fun o => o ∉ allowed)) := by
    rw [filterOptions, h₁]
    exact if_pos h₂
  refine ⟨pySorted ((pySorted (distincts (colValues.filterMap id))).filter
    (fun o => o ∉ allowed)), hunfold, chain'_pySorted _, ?_, ?_⟩
  · intro x hx
    rw [mem_pySorted, List.mem_filter] at hx
    obtain ⟨hxo, hxa⟩ := hx
    simp only [decide_eq_true_eq] at hxa
    rw [mem_pySorted, mem_distincts] at hxo
    exact ⟨hxa, hxo⟩
  · intro v hv
    rw [hunfold, List.mem_append]
    by_cases hva : v ∈ allowed
    · exact Or.inl hva
    · refine Or.inr ?_
      rw [mem_pySorted, List.mem_filter, mem_pySorted, mem_distincts]
      exact ⟨hv, by simpa using hva⟩

/-- Witness for C8's amended statement at a concrete collection with an
unrecognized observed value. -/
theorem filter_options_amended_witness :
    ∃ w, filterOptions [some "Nonbinary", some "Male"] "What is your gender?"
        = ["Male", "Female", "Prefer not to say"] ++ w ∧
      List.Chain' (fun a b => strLe a b = true) w ∧
      (∀ x ∈ w, x ∉ ["Male", "Female", "Prefer not to say"] ∧
        x ∈ ([some "Nonbinary", some "Male"] : List (Option String)).filterMap id) ∧
      (∀ v ∈ ([some "Nonbinary", some "Male"] : List (Option String)).filterMap id,
        v ∈ filterOptions [some "Nonbinary", some "Male"] "What is your gender?") :=
  filter_options_amended [some "Nonbinary", some "Male"] "What is your gender?"
    ["Male", "Female", "Prefer not to say"] (by decide) (by decide)

/-- Inserting into the descending sort is a permutation. -/
lemma perm_insertDesc (x : String × Nat) (l : List (String × Nat)) :
    List.Perm (insertDesc x l) (x :: l) := by
  induction l with
  | nil => exact List.Perm.refl _
  | cons y ys ih =>
    rw [insertDesc]
    split
    · exact List.Perm.refl _
    · exact (ih.cons y).trans (List.Perm.swap x y ys)

/-- The descending sort is a permutation of its input. -/
lemma perm_sortDesc (l : List (String × Nat)) : List.Perm (sortDesc l) l := by
  induction l with
  | nil => exact List.Perm.refl _
  | cons y ys ih =>
    rw [sortDesc, List.foldr_cons]
    exact (perm_insertDesc y (List.foldr insertDesc [] ys)).trans (ih.cons y)

/-- The distinct-value list has no duplicates. -/
lemma nodup_distincts (l : List String) : (distincts l).Nodup := by
  induction l with
  | nil => simp [distincts]
  | cons x xs ih =>
    rw [distincts]
    refine List.Nodup.cons ?_ (ih.filter _)
    intro hx
    have := (List.mem_filter.mp hx).2
    simp at this

/-- Summing each distinct value's count recovers the list length. -/
lemma sum_counts_distincts (s : List String) :
    ((distincts s).map (fun v => s.count v)).sum = s.length := by
  have hfs : (distincts s).toFinset = s.toFinset := by
    ext v
    simp [List.mem_toFinset, mem_distincts]
  calc ((distincts s).map (fun v => s.count v)).sum
      = (distincts s).toFinset.sum (fun v => s.count v) :=
        (List.sum_toFinset _ (nodup_distincts s)).symm
    _ = s.toFinset.sum (fun v => s.count v) := by rw [hfs]
    _ = s.length := List.sum_toFinset_count_eq_length s

/-- The aggregator's `total` is the number of counted tokens. -/
lemma countsSum_eq_length (s : List String) : countsSum s = s.length := by
  rw [countsSum, value_counts, ((perm_sortDesc (rowCounts s)).map Prod.snd).sum_eq,
    rowCounts, List.map_map]
  exact sum_counts_distincts s

/-- The table's count column sums to the number of counted tokens. -/
lemma totalCount_mkTable (s : List String) : totalCount (mkTable s) = s.length := by
  rw [totalCount, mkTable, List.map_map]
  show ((value_counts s).map Prod.snd).sum = s.length
  rw [← countsSum]
  exact countsSum_eq_length s

/-- A table over zero tokens is empty. -/
lemma mkTable_eq_nil (s : List String) (h : s.length = 0) : mkTable s = [] := by
  rw [List.length_eq_zero.mp h]
  rfl

/-- The answer column of the table has no duplicates. -/
lemma nodup_answers_mkTable (s : List String) :
    ((mkTable s).map FreqRow.answer).Nodup := by
  rw [mkTable, List.map_map]
  show ((value_counts s).map Prod.fst).Nodup
  rw [value_counts, ((perm_sortDesc (rowCounts s)).map Prod.fst).nodup_iff,
    rowCounts, List.map_map]
  show ((distincts s).map (fun v => v)).Nodup
  rw [List.map_id']
  exact nodup_distincts s

/-- Rounding to one decimal moves a rational by at most `1/20`. -/
lemma abs_round1_sub (q : ℚ) : |round1 q - q| ≤ 1/20 := by
  rw [round1_eq_floor]
  have h1 : ((⌊q * 10 + 1/2⌋ : ℤ) : ℚ) ≤ q * 10 + 1/2 := Int.floor_le _
  have h2 : q * 10 + 1/2 - 1 < ((⌊q * 10 + 1/2⌋ : ℤ) : ℚ) := Int.sub_one_lt_floor _
  rw [abs_le]
  constructor
  · linarith
  · linarith

/-- Rounding every entry of a list moves its sum by at most `length/20`. -/
lemma sum_map_round1_close (l : List ℚ) :
    |(l.map round1).sum - l.sum| ≤ (l.length : ℚ) * (1/20) := by
  induction l with
  | nil => simp
  | cons a as ih =>
    rw [List.map_cons, List.sum_cons, List.sum_cons, List.length_cons]
    have h1 := abs_round1_sub a
    have habs : |round1 a + (as.map round1).sum - (a + as.sum)|
        ≤ |round1 a - a| + |(as.map round1).sum - as.sum| := by
      have hre : round1 a + (as.map round1).sum - (a + as.sum)
          = (round1 a - a) + ((as.map round1).sum - as.sum) := by ring
      rw [hre]
      exact abs_add _ _
    push_cast
    push_cast at ih
    linarith

/-- Before rounding, the percentages sum to exactly 100. -/
lemma exact_pct_sum (s : List String) (h : 0 < countsSum s) :
    ((value_counts s).map
      (fun p => (p.2 : ℚ) / (countsSum s : ℚ) * 100)).sum = 100 := by
  have hrw : ∀ p ∈ value_counts s, (p.2 : ℚ) / (countsSum s : ℚ) * 100
      = (p.2 : ℚ) * (100 / (countsSum s : ℚ)) := by
    intro p _
    ring
  rw [List.map_congr_left hrw, List.sum_map_mul_right]
  have hsum : ((value_counts s).map (fun p => ((p.2 : Nat) : ℚ))).sum
      = (countsSum s : ℚ) := by
    calc ((value_counts s).map (fun p => ((p.2 : Nat) : ℚ))).sum
        = (((value_counts s).map Prod.snd).map (fun n : ℕ => (n : ℚ))).sum := by
          rw [List.map_map]
          rfl
      _ = ((((value_counts s).map Prod.snd).sum : ℕ) : ℚ) :=
          (Nat.cast_list_sum _).symm
      _ = (countsSum s : ℚ) := by rw [countsSum]
  rw [hsum]
  have hne : (countsSum s : ℚ) ≠ 0 := by
    have : (0 : ℚ) < (countsSum s : ℚ) := by exact_mod_cast h
    linarith
  field_simp

/-- The rounded percentages sum to within `rows/20` of 100. -/
lemma pctSum_mkTable (s : List String) (h : 0 < countsSum s) :
    |pctSum (mkTable s) - 100| ≤ ((mkTable s).length : ℚ) * (1/20) := by
  have hmap : (mkTable s).map FreqRow.percentage
      = ((value_counts s).map
          (fun p => (p.2 : ℚ) / (countsSum s : ℚ) * 100)).map round1 := by
    rw [mkTable, List.map_map, List.map_map]
    refine List.map_congr_left ?_
    intro p hp
    show (if 0 < countsSum s
      then round1 ((p.2 : ℚ) / (countsSum s : ℚ) * 100) else 0)
      = round1 ((p.2 : ℚ) / (countsSum s : ℚ) * 100)
    rw [if_pos h]
  have hclose := sum_map_round1_close
    ((value_counts s).map (fun p => (p.2 : ℚ) / (countsSum s : ℚ) * 100))
  rw [exact_pct_sum s h, List.length_map] at hclose
  have hlen : (mkTable s).length = (value_counts s).length := by
    rw [mkTable, List.length_map]
  rw [pctSum, hmap, hlen]
  exact hclose

/-- Counterexample to C2 as stated: a free-text question with six rows
holding six distinct values has total count 6 > 0, every row rounds to
16.7%, and the percentages sum to 100.2 — farther than 0.1 from 100. -/
theorem percentage_sum_counterexample :
    0 < totalCount (frequency_for_question
      [some "a", some "b", some "c", some "d", some "e", some "f"] "Q") ∧
    ¬ (|pctSum (frequency_for_question
      [some "a", some "b", some "c", some "d", some "e", some "f"] "Q") - 100|
        ≤ 1/10) := by
  have htok : tokensFor [some "a", some "b", some "c", some "d", some "e", some "f"] "Q"
      = ["a", "b", "c", "d", "e", "f"] := by decide
  have hvc : value_counts ["a", "b", "c", "d", "e", "f"]
      = [("a", 1), ("b", 1), ("c", 1), ("d", 1), ("e", 1), ("f", 1)] := by decide
  have hcs : countsSum ["a", "b", "c", "d", "e", "f"] = 6 := by decide
  constructor
  · rw [frequency_for_question, htok, totalCount_mkTable]
    decide
  · rw [frequency_for_question, htok]
    have hps : pctSum (mkTable ["a", "b", "c", "d", "e", "f"]) = 1002/10 := by
      rw [pctSum, mkTable, hvc, hcs, List.map_map]
      norm_num [round1_eq_floor]
    rw [hps]
    rw [show (1002 : ℚ)/10 - 100 = 1/5 by norm_num, abs_of_pos (by norm_num)]
    norm_num

/-- C2 (amended): for every question and collection the table is empty
when the total count is 0, and when the total count is positive the
rounded percentages sum to within `0.05 × (number of table rows)` of
100.0 (rounding each row to one decimal can move the sum by up to 0.05;
with more than two rows the distance can exceed 0.1, as the
counterexample shows). -/
theorem percentage_sum_amended (df_col : List (Option String)) (col : String) :
    (totalCount (frequency_for_question df_col col) = 0 →
      frequency_for_question df_col col = []) ∧
    (0 < totalCount (frequency_for_question df_col col) →
      |pctSum (frequency_for_question df_col col) - 100|
        ≤ ((frequency_for_question df_col col).length : ℚ) * (1/20)) := by
  constructor
  · intro h
    rw [frequency_for_question, totalCount_mkTable] at h
    rw [frequency_for_question]
    exact mkTable_eq_nil _ h
  · intro h
    rw [frequency_for_question, totalCount_mkTable, ← countsSum_eq_length] at h
    rw [frequency_for_question]
    exact pctSum_mkTable _ h

/-- Witness for C2's amended statement at a concrete one-row collection. -/
theorem percentage_sum_amended_witness :
    0 < totalCount (frequency_for_question [some "Yes"]
      "Have you ever used a leadership or personality assessment that was NOT required by an employer?") ∧
    |pctSum (frequency_for_question [some "Yes"]
      "Have you ever used a leadership or personality assessment that was NOT required by an employer?") - 100|
      ≤ ((frequency_for_question [some "Yes"]
        "Have you ever used a leadership or personality assessment that was NOT required by an employer?").length : ℚ)
        * (1/20) :=
  ⟨by decide,
    (percentage_sum_amended [some "Yes"]
      "Have you ever used a leadership or personality assessment that was NOT required by an employer?").2
      (by decide)⟩

/-- C10: every row of a frequency table has a strictly positive count,
the answer labels are pairwise distinct, and the counts sum to the
number of counted (non-absent) tokens. -/
theorem frequency_table_invariants (df_col : List (Option String)) (col : String) :
    (∀ row ∈ frequency_for_question df_col col, 0 < row.count) ∧
    ((frequency_for_question df_col col).map FreqRow.answer).Nodup ∧
    totalCount (frequency_for_question df_col col)
      = (tokensFor df_col col).length := by
  refine ⟨?_, nodup_answers_mkTable _, totalCount_mkTable _⟩
  intro row hrow
  rw [frequency_for_question, mkTable] at hrow
  obtain ⟨p, hp, rfl⟩ := List.mem_map.mp hrow
  show 0 < p.2
  rw [value_counts] at hp
  have hp' : p ∈ rowCounts (tokensFor df_col col) := (perm_sortDesc _).mem_iff.mp hp
  rw [rowCounts] at hp'
  obtain ⟨v, hv, rfl⟩ := List.mem_map.mp hp'
  show 0 < (tokensFor df_col col).count v
  exact List.count_pos_iff.mpr ((mem_distincts v _).mp hv)

/-- Witness for C10 at a concrete two-row collection. -/
theorem frequency_table_invariants_witness :
    totalCount (frequency_for_question [some "x", some "x"] "Some free question")
      = (tokensFor [some "x", some "x"] "Some free question").length :=
  (frequency_table_invariants [some "x", some "x"] "Some free question").2.2
